import Mathlib

/-!
Verification of the credit-approval rule engine (`src/index.ts`).

The engine is the pure function `computeDecision` (index.ts lines 21-206)
over an untyped JSON-ish case record.  We shallowly embed the JavaScript
fragment it uses:

* JS numbers are modelled as exact extended rationals (`JNum`): a finite
  rational, the two infinities, or NaN.  The engine performs no operation
  whose rounding behaviour on IEEE doubles is observable by the claims
  (it only adds, divides under positivity guards, compares against
  rational constants, clamps, and rounds once), so exact rationals are a
  faithful model of the quantities the claims speak about.
* JS values are the inductive `JSVal` (null, undefined, booleans, numbers,
  strings, arrays, objects).
* Property access: `optChain v k` models `v?.k` (never throws);
  `jsGetProp v k` models the value of `v.k` when `v` is not nullish;
  `getFieldE v k` models a raw `v.k` access, which throws a `TypeError`
  for a nullish `v`.  The throwing variant is used by `computeDecisionE`,
  the fallible model of the engine, to settle the never-raises claim.
* The generated timestamp (`new Date().toISOString()`, lines 166 and 204)
  is modelled by an explicit `now : String` argument; the two clock reads
  of one evaluation are modelled as the same instant.
* Template-literal messages are reified as constructors of the `Reason`
  and `Condition` inductives carrying the same numeric payloads that the
  source interpolates; no claim depends on the literal rendered text.
-/

/-- A JavaScript number: a finite (exact) rational, an infinity, or NaN. -/
inductive JNum where
  | fin (q : ℚ)
  | posInf
  | negInf
  | nan
deriving DecidableEq, Repr

/-- JS addition on numbers (NaN absorbs; opposite infinities give NaN). -/
def JNum.add : JNum → JNum → JNum
  | .nan, _ => .nan
  | _, .nan => .nan
  | .posInf, .negInf => .nan
  | .negInf, .posInf => .nan
  | .posInf, _ => .posInf
  | _, .posInf => .posInf
  | .negInf, _ => .negInf
  | _, .negInf => .negInf
  | .fin a, .fin b => .fin (a + b)

/-- JS negation on numbers. -/
def JNum.neg : JNum → JNum
  | .fin q => .fin (-q)
  | .posInf => .negInf
  | .negInf => .posInf
  | .nan => .nan

/-- JS division of a number by a nonzero finite rational.  The engine only
divides under a `> 0` guard on the denominator (index.ts lines 44, 49, 56). -/
def JNum.divq (x : JNum) (q : ℚ) : JNum :=
  match x with
  | .nan => .nan
  | .fin a => .fin (a / q)
  | .posInf => if 0 < q then .posInf else .negInf
  | .negInf => if 0 < q then .negInf else .posInf

/-- `Number.isFinite`. -/
def JNum.isFinite : JNum → Bool
  | .fin _ => true
  | _ => false

/-- A JavaScript value, as far as the engine inspects one. -/
inductive JSVal where
  | null
  | undefined
  | bool (b : Bool)
  | num (n : JNum)
  | str (s : String)
  | arr (elems : List JSVal)
  | obj (fields : List (String × JSVal))

/-- First binding of a key in an object's field list (JS objects have
unique keys; the first match is the value). -/
def lookupField (k : String) : List (String × JSVal) → Option JSVal
  | [] => none
  | (k', v) :: rest => if k' = k then some v else lookupField k rest

/-- The value of property `k` of a non-nullish value `v` (`v.k` when it
does not throw): named object properties; the named (non-index) properties
the engine reads are absent on arrays and primitives. -/
def jsGetProp (v : JSVal) (k : String) : JSVal :=
  match v with
  | .obj fs => (lookupField k fs).getD .undefined
  | _ => .undefined

/-- Optional chaining `v?.k`: `undefined` for nullish `v`, else `v.k`. -/
def optChain (v : JSVal) (k : String) : JSVal :=
  match v with
  | .null => .undefined
  | .undefined => .undefined
  | _ => jsGetProp v k

/-- A raw `v.k` access: throws a TypeError on nullish `v` (modelled as
`Except.error`), else yields `v.k`. -/
def getFieldE (v : JSVal) (k : String) : Except String JSVal :=
  match v with
  | .null => .error "TypeError: cannot read properties of null"
  | .undefined => .error "TypeError: cannot read properties of undefined"
  | _ => .ok (jsGetProp v k)

/-- JS truthiness test, negated (`!v`). -/
def jsFalsy : JSVal → Bool
  | .null => true
  | .undefined => true
  | .bool b => !b
  | .num (.fin q) => decide (q = 0)
  | .num .nan => true
  | .num _ => false
  | .str s => decide (s = "")
  | .arr _ => false
  | .obj _ => false

/-- `typeof v === "object"` (true for null, arrays and objects). -/
def jsTypeofIsObject : JSVal → Bool
  | .null => true
  | .arr _ => true
  | .obj _ => true
  | _ => false

/-- `Object.entries`: own enumerable entries; index keys for arrays. -/
def jsEntries : JSVal → List (String × JSVal)
  | .obj fs => fs
  | .arr xs => xs.enum.map (fun p => (toString p.1, p.2))
  | _ => []

/-- JS whitespace as stripped by `Number(string)` and `String.trim`
(space, tab, line terminators, vertical tab, form feed, NBSP, BOM). -/
def isJsSpace (c : Char) : Bool :=
  c = ' ' || c = '\t' || c = '\n' || c = '\r' ||
    c.toNat = 11 || c.toNat = 12 || c.toNat = 160 || c.toNat = 65279

/-- `String.prototype.trim`. -/
def jsTrim (s : String) : String :=
  String.mk (((s.data.dropWhile isJsSpace).reverse.dropWhile isJsSpace).reverse)

/-- Numeric value of one hexadecimal digit character. -/
def hexDigitVal (c : Char) : Option ℕ :=
  if '0' ≤ c ∧ c ≤ '9' then some (c.toNat - 48)
  else if 'a' ≤ c ∧ c ≤ 'f' then some (c.toNat - 87)
  else if 'A' ≤ c ∧ c ≤ 'F' then some (c.toNat - 55)
  else none

/-- Value of a nonempty digit string in base `b` (digits must be `< b`). -/
def baseDigitsVal (b : ℕ) (cs : List Char) : Option ℕ :=
  cs.foldl
    (fun acc c =>
      acc.bind fun a =>
        (hexDigitVal c).bind fun d => if d < b then some (b * a + d) else none)
    (if cs = [] then none else some 0)

/-- Value of a (possibly empty) decimal digit string. -/
def decDigitsVal (ds : List Char) : ℕ :=
  ds.foldl (fun a c => 10 * a + (c.toNat - 48)) 0

/-- Parse the optional exponent tail of a JS decimal literal; `none` means
the tail is not a well-formed (possibly empty) exponent part. -/
def parseExpPart : List Char → Option ℤ
  | [] => some 0
  | c :: rest =>
    if c = 'e' ∨ c = 'E' then
      match rest with
      | '+' :: ds =>
        if ds ≠ [] ∧ ds.all Char.isDigit then some ((decDigitsVal ds : ℤ)) else none
      | '-' :: ds =>
        if ds ≠ [] ∧ ds.all Char.isDigit then some (-(decDigitsVal ds : ℤ)) else none
      | ds =>
        if ds ≠ [] ∧ ds.all Char.isDigit then some ((decDigitsVal ds : ℤ)) else none
    else none

/-- Parse an unsigned JS decimal literal (`123`, `123.`, `.5`, `1.5e-2`). -/
def parseDecimal (cs : List Char) : Option ℚ :=
  let ip := cs.takeWhile Char.isDigit
  let r1 := cs.dropWhile Char.isDigit
  match r1 with
  | '.' :: r2 =>
    let fp := r2.takeWhile Char.isDigit
    let r3 := r2.dropWhile Char.isDigit
    if ip = [] ∧ fp = [] then none
    else
      (parseExpPart r3).map fun e =>
        ((decDigitsVal ip : ℚ) + (decDigitsVal fp : ℚ) / (10 : ℚ) ^ fp.length) * (10 : ℚ) ^ e
  | _ =>
    if ip = [] then none
    else (parseExpPart r1).map fun e => (decDigitsVal ip : ℚ) * (10 : ℚ) ^ e

/-- Parse an unsigned decimal-or-Infinity part of `Number(string)`. -/
def parseUnsignedDec (cs : List Char) : Option JNum :=
  if cs = "Infinity".data then some .posInf
  else (parseDecimal cs).map JNum.fin

/-- Parse an optionally signed decimal-or-Infinity part of `Number(string)`. -/
def parseSignedDec : List Char → Option JNum
  | '+' :: cs => parseUnsignedDec cs
  | '-' :: cs => (parseUnsignedDec cs).map JNum.neg
  | cs => parseUnsignedDec cs

/-- `Number(string)`: trimmed empty string is 0; hex/octal/binary integer
literals (unsigned); otherwise an optionally signed decimal literal or
Infinity; anything else is NaN. -/
def jsStringToNumber (s : String) : JNum :=
  let t := ((s.data.dropWhile isJsSpace).reverse.dropWhile isJsSpace).reverse
  if t = [] then .fin 0
  else
    match t with
    | '0' :: 'x' :: ds => ((baseDigitsVal 16 ds).map fun n => .fin (n : ℚ)).getD .nan
    | '0' :: 'X' :: ds => ((baseDigitsVal 16 ds).map fun n => .fin (n : ℚ)).getD .nan
    | '0' :: 'o' :: ds => ((baseDigitsVal 8 ds).map fun n => .fin (n : ℚ)).getD .nan
    | '0' :: 'O' :: ds => ((baseDigitsVal 8 ds).map fun n => .fin (n : ℚ)).getD .nan
    | '0' :: 'b' :: ds => ((baseDigitsVal 2 ds).map fun n => .fin (n : ℚ)).getD .nan
    | '0' :: 'B' :: ds => ((baseDigitsVal 2 ds).map fun n => .fin (n : ℚ)).getD .nan
    | _ => (parseSignedDec t).getD .nan

/-- Line 7: `typeof x === "number" ? x : typeof x === "string" ? Number(x) : NaN`. -/
def jsToNumber : JSVal → JNum
  | .num n => n
  | .str s => jsStringToNumber s
  | _ => .nan

/-- Lines 6-9: coerce to a finite number or null (`Number.isFinite(n) ? n : null`). -/
def asNumber (x : JSVal) : Option ℚ :=
  match jsToNumber x with
  | .fin q => some q
  | _ => none

/-- Rendering of a JS number by `String()`.  The engine compares the
resulting strings only against the fixed words "yes" and "condo"
(index.ts lines 121, 131), which no numeric rendering can produce, so an
exact-rational rendering (integer when integral, else numerator/denominator)
is behaviourally faithful. -/
def jsNumToString : JNum → String
  | .nan => "NaN"
  | .posInf => "Infinity"
  | .negInf => "-Infinity"
  | .fin q => if q.den = 1 then toString q.num else toString q.num ++ "/" ++ toString q.den

mutual

/-- Elements of an array rendered by `Array.prototype.toString` (join with
","); null and undefined elements render as the empty string. -/
def jsToStringElems : List JSVal → String
  | [] => ""
  | [x] => jsArrElemString x
  | x :: y :: xs => jsArrElemString x ++ "," ++ jsToStringElems (y :: xs)

/-- One array element as rendered inside a join. -/
def jsArrElemString : JSVal → String
  | .null => ""
  | .undefined => ""
  | .bool true => "true"
  | .bool false => "false"
  | .num n => jsNumToString n
  | .str s => s
  | .arr xs => jsToStringElems xs
  | .obj _ => "[object Object]"

end

/-- `String(v)` conversion. -/
def jsToString : JSVal → String
  | .null => "null"
  | .undefined => "undefined"
  | .bool true => "true"
  | .bool false => "false"
  | .num n => jsNumToString n
  | .str s => s
  | .arr xs => jsToStringElems xs
  | .obj _ => "[object Object]"

/-- `a ?? b` (nullish coalescing on JS values). -/
def jsCoalesce (a b : JSVal) : JSVal :=
  match a with
  | .null => b
  | .undefined => b
  | _ => a

/-- Does the character list `p` start the character list of the second
argument? -/
def startsWithChars : List Char → List Char → Bool
  | [], _ => true
  | _ :: _, [] => false
  | p :: ps, c :: cs => p = c && startsWithChars ps cs

/-- Does `pat` occur as a contiguous run inside the character list? -/
def listContainsSub (pat : List Char) : List Char → Bool
  | [] => decide (pat = [])
  | c :: cs => startsWithChars pat (c :: cs) || listContainsSub pat cs

/-- `s.includes(pat)` on strings. -/
def strIncludes (s pat : String) : Bool :=
  listContainsSub pat.data s.data

/-- `typeof v === "number"`. -/
def isNumberValue : JSVal → Bool
  | .num _ => true
  | _ => false

/-- The native number held by a value (only applied to numbers). -/
def numberValue : JSVal → JNum
  | .num n => n
  | _ => .fin 0

/-- Lines 16-18: the fold over the individual numeric debt line items —
entries whose value is a native JS number (`typeof v === "number"`, which
includes NaN and the infinities but no numeric strings), excluding the
aggregate key. -/
def sumDebtsItems (debts : JSVal) : JNum :=
  ((jsEntries debts).filter
      (fun kv => decide (kv.1 ≠ "total_monthly_debt") && isNumberValue kv.2)).foldl
    (fun acc kv => acc.add (numberValue kv.2)) (JNum.fin 0)

/-- Lines 11-19 (`sumDebts`): 0 for a falsy or non-object argument; the
aggregate `total_monthly_debt` field when it coerces to a finite number;
else the sum of the native-number line items. -/
def sumDebts (debts : JSVal) : JNum :=
  if jsFalsy debts || !jsTypeofIsObject debts then .fin 0
  else
    match asNumber (jsGetProp debts "total_monthly_debt") with
    | some total => .fin total
    | none => sumDebtsItems debts

/-- Line 23: `typeof input?.case_id === "string" ? input.case_id : "demo"`. -/
def case_id (input : JSVal) : String :=
  match optChain input "case_id" with
  | .str s => s
  | _ => "demo"

/-- Line 25: `asNumber(input?.credit_score) ?? 0`. -/
def credit_score (input : JSVal) : ℚ :=
  (asNumber (optChain input "credit_score")).getD 0

/-- Line 26: `asNumber(input?.employment?.monthly_income) ?? 0`. -/
def monthly_income (input : JSVal) : ℚ :=
  (asNumber (optChain (optChain input "employment") "monthly_income")).getD 0

/-- Lines 28-31: the proposed payment, preferring `loan.monthly_piti`,
then `loan.estimated_payment`, defaulting to 0. -/
def proposed_payment (input : JSVal) : ℚ :=
  ((asNumber (optChain (optChain input "loan") "monthly_piti")).orElse
    (fun _ => asNumber (optChain (optChain input "loan") "estimated_payment"))).getD 0

/-- Line 35: `asNumber(input?.dti_ratio)`. -/
def providedDtiRatio (input : JSVal) : Option ℚ :=
  asNumber (optChain input "dti_ratio")

/-- Line 37: `sumDebts(input?.debts)`. -/
def existing_debt (input : JSVal) : JNum :=
  sumDebts (optChain input "debts")

/-- Line 38: `existing_debt + proposed_payment`. -/
def total_obligations (input : JSVal) : JNum :=
  (existing_debt input).add (.fin (proposed_payment input))

/-- Line 44: the recomputed DTI used when no authoritative caller ratio
applies: `monthly_income > 0 ? total_obligations / monthly_income : +Infinity`. -/
def dtiRecomputed (input : JSVal) : JNum :=
  if 0 < monthly_income input then
    (total_obligations input).divq (monthly_income input)
  else .posInf

/-- Lines 40-45: the DTI metric.  A caller-supplied ratio that coerces to a
finite number in `[0, 1.5]` is used unchanged; otherwise the ratio is
recomputed. -/
def dti (input : JSVal) : JNum :=
  match providedDtiRatio input with
  | some r => if 0 ≤ r ∧ r ≤ 3/2 then .fin r else dtiRecomputed input
  | none => dtiRecomputed input

/-- Line 47: `asNumber(input?.loan?.amount) ?? 0`. -/
def loan_amount (input : JSVal) : ℚ :=
  (asNumber (optChain (optChain input "loan") "amount")).getD 0

/-- Line 48: `asNumber(input?.property?.appraised_value) ?? 0`. -/
def appraised_value (input : JSVal) : ℚ :=
  (asNumber (optChain (optChain input "property") "appraised_value")).getD 0

/-- Line 49: `appraised_value > 0 ? loan_amount / appraised_value : +Infinity`. -/
def ltv (input : JSVal) : JNum :=
  if 0 < appraised_value input then
    .fin (loan_amount input / appraised_value input)
  else .posInf

/-- Lines 51-53: aggregate liquid assets, or checking + savings. -/
def liquid_assets_total (input : JSVal) : ℚ :=
  match asNumber (optChain (optChain input "assets") "liquid_assets_total") with
  | some x => x
  | none =>
    (asNumber (optChain (optChain input "assets") "checking")).getD 0
      + (asNumber (optChain (optChain input "assets") "savings")).getD 0

/-- Lines 55-56: `proposed_payment > 0 ? liquid_assets_total / proposed_payment : +Infinity`. -/
def reserves_months (input : JSVal) : JNum :=
  if 0 < proposed_payment input then
    .fin (liquid_assets_total input / proposed_payment input)
  else .posInf

/-- Line 59: `Math.min(1000, 0.25 * (monthly_income || 0))`. -/
def depositThreshold (input : JSVal) : ℚ :=
  min 1000 ((1/4) * (if monthly_income input = 0 then 0 else monthly_income input))

/-- Line 60: the `recent_deposits` array when `input?.assets?.recent_deposits`
is an array, else `[]`. -/
def recentDeposits (input : JSVal) : List JSVal :=
  match optChain (optChain input "assets") "recent_deposits" with
  | .arr xs => xs
  | _ => []

/-- One mapped deposit record (line 62): date, coerced amount, description. -/
structure Deposit where
  date : JSVal
  amount : ℚ
  description : JSVal

/-- Line 62: `{ date: d?.date, amount: asNumber(d?.amount) ?? 0, description: d?.description }`. -/
def mkDeposit (d : JSVal) : Deposit :=
  { date := optChain d "date"
    amount := (asNumber (optChain d "amount")).getD 0
    description := optChain d "description" }

/-- Lines 61-63: deposits whose amount meets the threshold. -/
def largeDeposits (input : JSVal) : List Deposit :=
  ((recentDeposits input).map mkDeposit).filter
    (fun d => decide (depositThreshold input ≤ d.amount))

/-- Lines 65-67: a non-empty (after trim) `assets.deposit_explanations` string. -/
def depositsDocumented (input : JSVal) : Bool :=
  match optChain (optChain input "assets") "deposit_explanations" with
  | .str s => decide (0 < (jsTrim s).length)
  | _ => false

/-- Line 70: `asNumber(input?.credit_history?.late_payments_12mo) ?? 0`. -/
def latePayments12mo (input : JSVal) : ℚ :=
  (asNumber (optChain (optChain input "credit_history") "late_payments_12mo")).getD 0

/-- Line 71: `asNumber(input?.credit_history?.late_payments_24mo) ?? 0` (unused downstream). -/
def latePayments24mo (input : JSVal) : ℚ :=
  (asNumber (optChain (optChain input "credit_history") "late_payments_24mo")).getD 0

/-- Line 72: `asNumber(input?.credit_history?.inquiries_6mo) ?? 0` (unused downstream). -/
def inquiries6mo (input : JSVal) : ℚ :=
  (asNumber (optChain (optChain input "credit_history") "inquiries_6mo")).getD 0

/-- Line 73: employment tenure in years, `employment.years` preferred over
`employment.years_employed`, defaulting to 0. -/
def employmentYears (input : JSVal) : ℚ :=
  ((asNumber (optChain (optChain input "employment") "years")).orElse
    (fun _ => asNumber (optChain (optChain input "employment") "years_employed"))).getD 0

/-- Line 74: `String(input?.employment?.employment_gap ?? "").toLowerCase()`. -/
def employmentGap (input : JSVal) : String :=
  (jsToString (jsCoalesce (optChain (optChain input "employment") "employment_gap") (.str ""))).toLower

/-- Line 75: `String(input?.property?.type ?? input?.loan?.property_type ?? "")`. -/
def propertyType (input : JSVal) : String :=
  jsToString
    (jsCoalesce (optChain (optChain input "property") "type")
      (jsCoalesce (optChain (optChain input "loan") "property_type") (.str "")))

/-- Line 76: `asNumber(input?.property?.required_repairs) ?? 0`. -/
def requiredRepairs (input : JSVal) : ℚ :=
  (asNumber (optChain (optChain input "property") "required_repairs")).getD 0

/-- Line 127: `Math.min(5000, 0.03 * (appraised_value || 0))`. -/
def holdbackLimit (input : JSVal) : ℚ :=
  min 5000 ((3/100) * (if appraised_value input = 0 then 0 else appraised_value input))

/-- `Math.round`: round half toward positive infinity. -/
def jsRound (q : ℚ) : ℤ := ⌊q + 1/2⌋

/-- Line 4: the three decision values. -/
inductive Decision where
  | APPROVED
  | CONDITIONAL_APPROVAL
  | DENIED
deriving DecidableEq, Repr

/-- Hard-fail reasons (lines 83-113), reified with the numeric payloads the
source interpolates into the message strings. -/
inductive Reason where
  /-- Line 84: credit score below the 620 minimum. -/
  | creditScoreBelowMin (credit_score : ℚ)
  /-- Line 89: DTI could not be calculated. -/
  | dtiNotCalculable
  /-- Line 91: DTI above 50%. -/
  | dtiAboveMax (dti : ℚ)
  /-- Line 96: LTV could not be calculated. -/
  | ltvNotCalculable
  /-- Line 98: LTV above 97%. -/
  | ltvAboveMax (ltv : ℚ)
  /-- Line 103: reserves could not be calculated. -/
  | reservesNotCalculable
  /-- Line 113: more than 2 late payments in the last 12 months. -/
  | excessiveLatePayments (count : ℚ)
deriving DecidableEq, Repr

/-- Soft conditions (lines 104-137), reified with the numeric payloads the
source interpolates into the message strings. -/
inductive Condition where
  /-- Line 105: increase reserves to at least 2 months of PITI. -/
  | increaseReserves (reserves_months : ℚ)
  /-- Line 110: letter of explanation for late payments. -/
  | latePaymentsLoe (count : ℚ)
  /-- Line 119: short employment tenure documentation. -/
  | employmentHistoryDocs (years : ℚ)
  /-- Line 122: employment gap letter of explanation. -/
  | employmentGapLoe
  /-- Line 128: property repairs with the rounded escrow holdback limit. -/
  | propertyRepairs (amount : ℚ) (holdback : ℤ)
  /-- Line 132: condominium project review. -/
  | condoProjectReview
  /-- Line 137: documentation and sourcing for large deposits. -/
  | largeDepositDocs (count : ℕ)
deriving DecidableEq, Repr

/-- Lines 83-113: the denial-reason list, in push order (credit score, DTI,
LTV, reserves, excessive late payments). -/
def reasons (input : JSVal) : List Reason :=
  (if credit_score input < 620 then [.creditScoreBelowMin (credit_score input)] else [])
    ++ (match dti input with
        | .fin q => if 1/2 < q then [.dtiAboveMax q] else []
        | _ => [.dtiNotCalculable])
    ++ (match ltv input with
        | .fin q => if 97/100 < q then [.ltvAboveMax q] else []
        | _ => [.ltvNotCalculable])
    ++ (match reserves_months input with
        | .fin _ => []
        | _ => [.reservesNotCalculable])
    ++ (if 2 < latePayments12mo input then
          [.excessiveLatePayments (latePayments12mo input)]
        else [])

/-- Lines 104-137: the condition list, in push order (low reserves, late
payments LOE, short tenure, employment gap, repairs, condo, large deposits).
The deposit data is passed in so that the fallible model can reuse this
definition with the values its raw accesses produced. -/
def conditionsWith (input : JSVal) (lds : List Deposit) (documented : Bool) : List Condition :=
  (match reserves_months input with
   | .fin q => if q < 2 then [.increaseReserves q] else []
   | _ => [])
    ++ (if 0 < latePayments12mo input then [.latePaymentsLoe (latePayments12mo input)] else [])
    ++ (if 0 < employmentYears input ∧ employmentYears input < 2 then
          [.employmentHistoryDocs (employmentYears input)]
        else [])
    ++ (if employmentGap input = "yes" then [.employmentGapLoe] else [])
    ++ (if 0 < requiredRepairs input then
          [.propertyRepairs (requiredRepairs input) (jsRound (holdbackLimit input))]
        else [])
    ++ (if strIncludes (propertyType input).toLower "condo" then [.condoProjectReview] else [])
    ++ (if 0 < lds.length ∧ documented = false then [.largeDepositDocs lds.length] else [])

/-- The condition list of an evaluation. -/
def conditions (input : JSVal) : List Condition :=
  conditionsWith input (largeDeposits input) (depositsDocumented input)

/-- Lines 140-147: any reason denies; else any condition gives conditional
approval; else approved. -/
def final_decisionWith (rs : List Reason) (cs : List Condition) : Decision :=
  if 0 < rs.length then .DENIED
  else if 0 < cs.length then .CONDITIONAL_APPROVAL
  else .APPROVED

/-- The resolved decision of an evaluation. -/
def final_decision (input : JSVal) : Decision :=
  final_decisionWith (reasons input) (conditions input)

/-- Line 151: the credit-tier contribution to the risk score. -/
def creditTierPoints (cs : ℚ) : ℚ :=
  if 740 ≤ cs then 5
  else if 700 ≤ cs then 15
  else if 660 ≤ cs then 30
  else if 620 ≤ cs then 45
  else 70

/-- Line 152: the DTI contribution, `Math.min(30, Math.max(0, (dti - 0.28) * 100))`
when finite, else 30. -/
def dtiPoints : JNum → ℚ
  | .fin q => min 30 (max 0 ((q - 28/100) * 100))
  | _ => 30

/-- Line 153: the LTV contribution, `Math.min(25, Math.max(0, (ltv - 0.80) * 100))`
when finite, else 25. -/
def ltvPoints : JNum → ℚ
  | .fin q => min 25 (max 0 ((q - 80/100) * 100))
  | _ => 25

/-- Line 154: the reserves contribution. -/
def reservesPoints : JNum → ℚ
  | .fin q => if 6 ≤ q then 0 else if 2 ≤ q then 5 else 15
  | _ => 15

/-- Lines 149-155: the composite risk score, rounded and clamped to `[0, 100]`. -/
def risk_score (input : JSVal) : ℤ :=
  max 0 (min 100 (jsRound
    (creditTierPoints (credit_score input)
      + dtiPoints (dti input)
      + ltvPoints (ltv input)
      + reservesPoints (reserves_months input))))

/-- The `metrics` record of the result (lines 185-199). -/
structure Metrics where
  credit_score : ℚ
  monthly_income : ℚ
  existing_debt : JNum
  proposed_payment : ℚ
  total_obligations : JNum
  dti : JNum
  loan_amount : ℚ
  appraised_value : ℚ
  ltv : JNum
  liquid_assets_total : ℚ
  reserves_months : JNum
  large_deposit_threshold : ℚ
  large_deposits : List Deposit

/-- The metrics of an evaluation, with the deposit list passed in (see
`conditionsWith`). -/
def metricsWith (input : JSVal) (lds : List Deposit) : Metrics :=
  { credit_score := credit_score input
    monthly_income := monthly_income input
    existing_debt := existing_debt input
    proposed_payment := proposed_payment input
    total_obligations := total_obligations input
    dti := dti input
    loan_amount := loan_amount input
    appraised_value := appraised_value input
    ltv := ltv input
    liquid_assets_total := liquid_assets_total input
    reserves_months := reserves_months input
    large_deposit_threshold := depositThreshold input
    large_deposits := lds }

/-- The metrics of an evaluation. -/
def metrics (input : JSVal) : Metrics :=
  metricsWith input (largeDeposits input)

/-- The decision memo (lines 157-179), reified: the fixed template's
variable slots.  `date` is `now.split("T")[0]` (line 166). -/
structure Memo where
  risk_score : ℤ
  decision : Decision
  case_id : String
  date : String
  credit_score : ℚ
  dti : JNum
  ltv : JNum
  reserves_months : JNum
  reasons : List Reason
  conditions : List Condition
deriving DecidableEq, Repr

/-- The result record (lines 181-205). -/
structure Result where
  case_id : String
  final_decision : Decision
  risk_score : ℤ
  metrics : Metrics
  conditions : List Condition
  reasons : List Reason
  decision_memo : Memo
  raw_input : JSVal
  timestamp : String

/-- Lines 21-206 (`computeDecision`), with the deposit data passed in (see
`conditionsWith`); `now` is the ISO timestamp of the evaluation instant. -/
def computeDecisionWith (input : JSVal) (now : String) (lds : List Deposit)
    (documented : Bool) : Result :=
  { case_id := case_id input
    final_decision := final_decisionWith (reasons input) (conditionsWith input lds documented)
    risk_score := risk_score input
    metrics := metricsWith input lds
    conditions := conditionsWith input lds documented
    reasons := reasons input
    decision_memo :=
      { risk_score := risk_score input
        decision := final_decisionWith (reasons input) (conditionsWith input lds documented)
        case_id := case_id input
        date := (now.splitOn "T").headD now
        credit_score := credit_score input
        dti := dti input
        ltv := ltv input
        reserves_months := reserves_months input
        reasons := reasons input
        conditions := conditionsWith input lds documented }
    raw_input := input
    timestamp := now }

/-- The engine: `computeDecision` of index.ts lines 21-206. -/
def computeDecision (input : JSVal) (now : String) : Result :=
  computeDecisionWith input now (largeDeposits input) (depositsDocumented input)

/-- Line 23, fallible: the ternary's true branch performs the raw access
`input.case_id` (guarded by the `typeof input?.case_id === "string"` test). -/
def case_idE (input : JSVal) : Except String String :=
  match optChain input "case_id" with
  | .str _ =>
    match getFieldE input "case_id" with
    | .error e => .error e
    | .ok (.str s) => .ok s
    | .ok _ => .ok "demo"
  | _ => .ok "demo"

/-- Lines 11-19, fallible: line 14 performs the raw access
`debts.total_monthly_debt` (guarded by the line-12 falsy/non-object test). -/
def sumDebtsE (debts : JSVal) : Except String JNum :=
  if jsFalsy debts || !jsTypeofIsObject debts then .ok (.fin 0)
  else
    match getFieldE debts "total_monthly_debt" with
    | .error e => .error e
    | .ok t =>
      match asNumber t with
      | some total => .ok (.fin total)
      | none => .ok (sumDebtsItems debts)

/-- Lines 60-63, fallible: the ternary's true branch performs the raw
accesses `input.assets.recent_deposits` and calls `.map` on the result
(guarded by the `Array.isArray(input?.assets?.recent_deposits)` test). -/
def recentDepositsE (input : JSVal) : Except String (List JSVal) :=
  match optChain (optChain input "assets") "recent_deposits" with
  | .arr _ =>
    match getFieldE input "assets" with
    | .error e => .error e
    | .ok a =>
      match getFieldE a "recent_deposits" with
      | .error e => .error e
      | .ok (.arr xs) => .ok xs
      | .ok _ => .error "TypeError: map is not a function"
  | _ => .ok []

/-- Lines 65-67, fallible: the second conjunct performs the raw accesses
`input.assets.deposit_explanations` and calls `.trim()` on the result
(guarded by the short-circuiting `typeof ... === "string"` first conjunct). -/
def depositsDocumentedE (input : JSVal) : Except String Bool :=
  match optChain (optChain input "assets") "deposit_explanations" with
  | .str _ =>
    match getFieldE input "assets" with
    | .error e => .error e
    | .ok a =>
      match getFieldE a "deposit_explanations" with
      | .error e => .error e
      | .ok (.str s) => .ok (decide (0 < (jsTrim s).length))
      | .ok _ => .error "TypeError: trim is not a function"
  | _ => .ok false

/-- The fallible model of the engine: every raw (non-optional-chained)
property access of `computeDecision` — lines 14, 23, 60-63 and 66-67; all
other accesses use `?.` and all other operations are total — is performed
through `getFieldE`, and any TypeError aborts the evaluation.  When all
of them succeed the pure result is produced. -/
def computeDecisionE (input : JSVal) (now : String) : Except String Result :=
  match case_idE input with
  | .error e => .error e
  | .ok _ =>
    match sumDebtsE (optChain input "debts") with
    | .error e => .error e
    | .ok _ =>
      match recentDepositsE input with
      | .error e => .error e
      | .ok rd =>
        match depositsDocumentedE input with
        | .error e => .error e
        | .ok dd =>
          .ok (computeDecisionWith input now
            ((rd.map mkDeposit).filter (fun d => decide (depositThreshold input ≤ d.amount)))
            dd)

/-- A value whose optional chain yields something other than `undefined`
is itself not nullish. -/
theorem optChain_ne_undefined (v : JSVal) (k : String)
    (h : optChain v k ≠ .undefined) : v ≠ .null ∧ v ≠ .undefined := by
  cases v <;> simp [optChain] at h ⊢

/-- A raw access on a non-nullish value succeeds with the chained value. -/
theorem getFieldE_ok (v : JSVal) (k : String) (h1 : v ≠ .null)
    (h2 : v ≠ .undefined) : getFieldE v k = .ok (optChain v k) := by
  cases v <;> simp [getFieldE, optChain] at h1 h2 ⊢

/-- The raw `input.case_id` access of line 23 never throws and yields the
value the pure extractor uses. -/
theorem case_idE_ok (input : JSVal) : case_idE input = .ok (case_id input) := by
  unfold case_idE case_id
  cases h : optChain input "case_id" with
  | str s =>
    have hne : optChain input "case_id" ≠ .undefined := by simp [h]
    obtain ⟨h1, h2⟩ := optChain_ne_undefined input "case_id" hne
    rw [getFieldE_ok input "case_id" h1 h2, h]
  | _ => rfl

/-- The raw `debts.total_monthly_debt` access of line 14 never throws and
`sumDebtsE` computes exactly `sumDebts`. -/
theorem sumDebtsE_ok (debts : JSVal) : sumDebtsE debts = .ok (sumDebts debts) := by
  unfold sumDebtsE sumDebts
  cases debts <;> simp [jsFalsy, jsTypeofIsObject, getFieldE, optChain, jsGetProp]
  case arr xs =>
    cases h : asNumber JSVal.undefined <;> simp [h]
  case obj fs =>
    cases h : asNumber ((lookupField "total_monthly_debt" fs).getD JSVal.undefined) <;> simp [h]

/-- The raw `input.assets.recent_deposits` accesses of lines 60-63 never
throw and yield the array the pure extractor uses. -/
theorem recentDepositsE_ok (input : JSVal) :
    recentDepositsE input = .ok (recentDeposits input) := by
  unfold recentDepositsE recentDeposits
  cases h : optChain (optChain input "assets") "recent_deposits" with
  | arr xs =>
    have hne : optChain (optChain input "assets") "recent_deposits" ≠ .undefined := by
      simp [h]
    obtain ⟨ha1, ha2⟩ := optChain_ne_undefined _ _ hne
    obtain ⟨hi1, hi2⟩ := optChain_ne_undefined input "assets" ha2
    simp only [getFieldE_ok input "assets" hi1 hi2,
      getFieldE_ok (optChain input "assets") "recent_deposits" ha1 ha2, h]
  | _ => rfl

/-- The raw `input.assets.deposit_explanations` accesses of lines 66-67
never throw and yield the string the pure extractor trims. -/
theorem depositsDocumentedE_ok (input : JSVal) :
    depositsDocumentedE input = .ok (depositsDocumented input) := by
  unfold depositsDocumentedE depositsDocumented
  cases h : optChain (optChain input "assets") "deposit_explanations" with
  | str s =>
    have hne : optChain (optChain input "assets") "deposit_explanations" ≠ .undefined := by
      simp [h]
    obtain ⟨ha1, ha2⟩ := optChain_ne_undefined _ _ hne
    obtain ⟨hi1, hi2⟩ := optChain_ne_undefined input "assets" ha2
    simp only [getFieldE_ok input "assets" hi1 hi2,
      getFieldE_ok (optChain input "assets") "deposit_explanations" ha1 ha2, h]
  | _ => rfl

/-- The fallible evaluation always succeeds, with the pure result. -/
theorem computeDecisionE_ok (input : JSVal) (now : String) :
    computeDecisionE input now = .ok (computeDecision input now) := by
  unfold computeDecisionE computeDecision
  rw [case_idE_ok, sumDebtsE_ok, recentDepositsE_ok, depositsDocumentedE_ok]
  rfl

/-- Does a caller-supplied `dti_ratio` coerce to a finite number in
`[0, 1.5]` (the authoritative-ratio test of line 41)? -/
def providedDtiApplies (input : JSVal) : Bool :=
  match providedDtiRatio input with
  | some r => decide (0 ≤ r ∧ r ≤ 3/2)
  | none => false

/-- Spec-side `clamp(lo, x, hi)` from the claim's words. -/
def specClamp (lo x hi : ℚ) : ℚ := min hi (max lo x)

/-- Spec-side credit-tier contribution, from the claim's words:
score ≥740→5, ≥700→15, ≥660→30, ≥620→45, else 70. -/
def specCreditTier (score : ℚ) : ℚ :=
  if 740 ≤ score then 5
  else if 700 ≤ score then 15
  else if 660 ≤ score then 30
  else if 620 ≤ score then 45
  else 70

/-- Spec-side DTI contribution: `clamp(0, (dti - 0.28) * 100, 30)` if
finite, else 30. -/
def specDtiContribution : JNum → ℚ
  | .fin q => specClamp 0 ((q - 28/100) * 100) 30
  | _ => 30

/-- Spec-side LTV contribution: `clamp(0, (ltv - 0.80) * 100, 25)` if
finite, else 25. -/
def specLtvContribution : JNum → ℚ
  | .fin q => specClamp 0 ((q - 80/100) * 100) 25
  | _ => 25

/-- Spec-side reserves contribution: 0 if ≥ 6 months, 5 if ≥ 2 months,
else 15; 15 when non-finite. -/
def specReservesContribution : JNum → ℚ
  | .fin q => if 6 ≤ q then 0 else if 2 ≤ q then 5 else 15
  | _ => 15

/-- Spec-side risk score from the claim's words: the rounded sum of the
four contributions, clamped to `[0, 100]`. -/
def specRiskScore (score : ℚ) (d l r : JNum) : ℤ :=
  max 0 (min 100 (jsRound
    (specCreditTier score + specDtiContribution d + specLtvContribution l
      + specReservesContribution r)))

/-- Spec-side existing-debt total from the amended wording of the debt
aggregation claim: the sum of the entries whose value is a native JS
number, excluding the aggregate key. -/
def specNativeItemSum (entries : List (String × JSVal)) : JNum :=
  (entries.filter (fun kv => decide (kv.1 ≠ "total_monthly_debt") && isNumberValue kv.2)).foldl
    (fun acc kv => acc.add (numberValue kv.2)) (JNum.fin 0)

/-- The two-level priority law, over arbitrary reason/condition lists. -/
theorem final_decisionWith_law (rs : List Reason) (cs : List Condition) :
    (final_decisionWith rs cs = .DENIED ↔ rs ≠ []) ∧
      (final_decisionWith rs cs = .CONDITIONAL_APPROVAL ↔ rs = [] ∧ cs ≠ []) ∧
      (final_decisionWith rs cs = .APPROVED ↔ rs = [] ∧ cs = []) := by
  cases rs <;> cases cs <;> simp [final_decisionWith]

/-- The credit-tier contribution is at least 5. -/
theorem creditTierPoints_ge_five (score : ℚ) : 5 ≤ creditTierPoints score := by
  unfold creditTierPoints
  split_ifs <;> norm_num

/-- The DTI contribution is never negative. -/
theorem dtiPoints_nonneg (d : JNum) : 0 ≤ dtiPoints d := by
  cases d <;> simp [dtiPoints]

/-- The LTV contribution is never negative. -/
theorem ltvPoints_nonneg (l : JNum) : 0 ≤ ltvPoints l := by
  cases l <;> simp [ltvPoints]

/-- The reserves contribution is never negative. -/
theorem reservesPoints_nonneg (r : JNum) : 0 ≤ reservesPoints r := by
  cases r <;> simp [reservesPoints]
  split_ifs <;> norm_num

/-- C1: for every input case record, the resolved decision is DENIED
exactly when the reason list is non-empty, CONDITIONAL_APPROVAL exactly
when the reason list is empty and the condition list is non-empty, and
APPROVED exactly when both are empty; no other decision value is
reachable, and the resolution is the function `final_decisionWith` of the
two lists alone, independent of the risk score. -/
theorem c1_decision_priority (input : JSVal) (now : String) :
    ((computeDecision input now).final_decision = .DENIED ↔
        (computeDecision input now).reasons ≠ []) ∧
      ((computeDecision input now).final_decision = .CONDITIONAL_APPROVAL ↔
        (computeDecision input now).reasons = [] ∧ (computeDecision input now).conditions ≠ []) ∧
      ((computeDecision input now).final_decision = .APPROVED ↔
        (computeDecision input now).reasons = [] ∧ (computeDecision input now).conditions = []) ∧
      (computeDecision input now).final_decision
        = final_decisionWith (computeDecision input now).reasons
            (computeDecision input now).conditions :=
  ⟨(final_decisionWith_law _ _).1, (final_decisionWith_law _ _).2.1,
    (final_decisionWith_law _ _).2.2, rfl⟩

/-- C3: for every input case record, the risk score equals the spec-side
rounded sum of the four independently bounded, clamped-non-negative
contributions, and the final clamp keeps it in `[0, 100]`. -/
theorem c3_risk_score_formula (input : JSVal) (now : String) :
    (computeDecision input now).risk_score
        = specRiskScore (credit_score input) (dti input) (ltv input) (reserves_months input)
      ∧ 0 ≤ (computeDecision input now).risk_score
      ∧ (computeDecision input now).risk_score ≤ 100 := by
  refine ⟨?_, ?_, ?_⟩
  · show risk_score input = _
    unfold risk_score specRiskScore
    cases dti input <;> cases ltv input <;> cases reserves_months input <;> rfl
  · show (0:ℤ) ≤ risk_score input
    exact le_max_left 0 _
  · show risk_score input ≤ 100
    unfold risk_score
    exact max_le (by norm_num) (min_le_left _ _)

/-- C4: for every input value — including non-record inputs and records
with missing or malformed fields of any shape — the fallible evaluation,
in which every raw property access may throw, never raises and always
produces the pure engine's Result. -/
theorem c4_total_no_raise (input : JSVal) (now : String) :
    computeDecisionE input now = Except.ok (computeDecision input now) :=
  computeDecisionE_ok input now

/-- C10: for every input case record, the risk score is at least 5: the
credit tier contributes at least 5 and the other three contributions are
clamped non-negative, so the documented lower bound 0 is never attained. -/
theorem c10_risk_score_ge_five (input : JSVal) (now : String) :
    5 ≤ (computeDecision input now).risk_score := by
  show (5:ℤ) ≤ risk_score input
  unfold risk_score
  have h1 := creditTierPoints_ge_five (credit_score input)
  have h2 := dtiPoints_nonneg (dti input)
  have h3 := ltvPoints_nonneg (ltv input)
  have h4 := reservesPoints_nonneg (reserves_months input)
  have hr : (5:ℤ) ≤ jsRound
      (creditTierPoints (credit_score input) + dtiPoints (dti input)
        + ltvPoints (ltv input) + reservesPoints (reserves_months input)) := by
    unfold jsRound
    rw [Int.le_floor]
    push_cast
    linarith
  exact le_trans (le_min (by norm_num) hr) (le_max_right 0 _)

/-- C2: for every input case record, a zero (or absent, hence
zero-defaulted) `monthly_income` with no authoritative caller-supplied
ratio, a zero or absent `appraised_value`, and a zero or absent
`proposed_payment` make the corresponding ratio positive infinity —
never zero and never NaN. -/
theorem c2_division_by_zero_policy (input : JSVal) :
    (providedDtiApplies input = false → monthly_income input = 0 → dti input = JNum.posInf) ∧
      (appraised_value input = 0 → ltv input = JNum.posInf) ∧
      (proposed_payment input = 0 → reserves_months input = JNum.posInf) := by
  refine ⟨?_, ?_, ?_⟩
  · intro hp hm
    unfold dti
    cases h : providedDtiRatio input with
    | none =>
      simp only [h]
      unfold dtiRecomputed
      rw [hm]
      norm_num
    | some r =>
      unfold providedDtiApplies at hp
      rw [h] at hp
      simp only [decide_eq_false_iff_not] at hp
      simp only [h, if_neg hp]
      unfold dtiRecomputed
      rw [hm]
      norm_num
  · intro h
    unfold ltv
    rw [h]
    norm_num
  · intro h
    unfold reserves_months
    rw [h]
    norm_num

/-- Witness for C2: the empty case record has zero-defaulted income,
appraisal and payment, no caller DTI, and all three ratios come out as
positive infinity. -/
theorem c2_witness :
    providedDtiApplies (JSVal.obj []) = false ∧ monthly_income (JSVal.obj []) = 0 ∧
      appraised_value (JSVal.obj []) = 0 ∧ proposed_payment (JSVal.obj []) = 0 ∧
      dti (JSVal.obj []) = JNum.posInf ∧ ltv (JSVal.obj []) = JNum.posInf ∧
      reserves_months (JSVal.obj []) = JNum.posInf :=
  ⟨by decide, by decide, by decide, by decide,
    (c2_division_by_zero_policy (JSVal.obj [])).1 (by decide) (by decide),
    (c2_division_by_zero_policy (JSVal.obj [])).2.1 (by decide),
    (c2_division_by_zero_policy (JSVal.obj [])).2.2 (by decide)⟩

/-- A case record whose monthly income coerces to a negative number and
whose proposed payment is 100, with no caller-supplied DTI ratio. -/
def negIncomeCase : JSVal := JSVal.obj
  [ ("employment", JSVal.obj [ ("monthly_income", JSVal.num (JNum.fin (-100)))])
  , ("loan", JSVal.obj [ ("monthly_piti", JSVal.num (JNum.fin 100))])]

/-- Counterexample to C6 as stated: with no caller-supplied ratio and a
nonzero (negative) monthly income, the claim's formula
`(existing_debt + proposed_payment) / monthly_income` predicts the finite
quotient -1, but the engine (line 44 tests `monthly_income > 0`, not
`≠ 0`) yields positive infinity. -/
theorem c6_counterexample :
    providedDtiRatio negIncomeCase = none ∧
      monthly_income negIncomeCase = -100 ∧
      total_obligations negIncomeCase = JNum.fin 100 ∧
      dti negIncomeCase
          ≠ (total_obligations negIncomeCase).divq (monthly_income negIncomeCase) ∧
      dti negIncomeCase = JNum.posInf := by with_unfolding_all decide

/-- C6 amended: a caller-supplied ratio coercing into `[0, 1.5]` is used
unchanged; otherwise the DTI is the quotient
`(existing_debt + proposed_payment) / monthly_income` when the income is
positive, and positive infinity when the income is zero, negative, or
absent. -/
theorem c6_amended_dti_policy (input : JSVal) :
    (∀ r, providedDtiRatio input = some r → 0 ≤ r → r ≤ 3/2 → dti input = JNum.fin r) ∧
      (providedDtiApplies input = false →
        (0 < monthly_income input →
            dti input = (total_obligations input).divq (monthly_income input)) ∧
          (monthly_income input ≤ 0 → dti input = JNum.posInf)) := by
  constructor
  · intro r h h0 h1
    unfold dti
    simp only [h]
    rw [if_pos ⟨h0, h1⟩]
  · intro hp
    have hrec : dti input = dtiRecomputed input := by
      unfold dti
      cases h : providedDtiRatio input with
      | none => simp only [h]
      | some r =>
        unfold providedDtiApplies at hp
        rw [h] at hp
        simp only [decide_eq_false_iff_not] at hp
        simp only [h, if_neg hp]
    constructor
    · intro hm
      rw [hrec]
      unfold dtiRecomputed
      rw [if_pos hm]
    · intro hm
      rw [hrec]
      unfold dtiRecomputed
      rw [if_neg (not_lt.mpr hm)]

/-- A case record supplying `dti_ratio` 0.3 and nothing else. -/
def providedDtiCase : JSVal := JSVal.obj [ ("dti_ratio", JSVal.num (JNum.fin (3/10)))]

/-- Witness for the amended C6: a supplied in-range ratio is used
unchanged, and a negative income with no usable supplied ratio yields
positive infinity. -/
theorem c6_amended_witness :
    providedDtiRatio providedDtiCase = some (3/10) ∧
      dti providedDtiCase = JNum.fin (3/10) ∧
      providedDtiApplies negIncomeCase = false ∧
      monthly_income negIncomeCase ≤ 0 ∧
      dti negIncomeCase = JNum.posInf :=
  ⟨by with_unfolding_all decide,
    (c6_amended_dti_policy providedDtiCase).1 (3/10) (by with_unfolding_all decide)
      (by with_unfolding_all decide) (by with_unfolding_all decide),
    by with_unfolding_all decide, by with_unfolding_all decide,
    ((c6_amended_dti_policy negIncomeCase).2 (by with_unfolding_all decide)).2
      (by with_unfolding_all decide)⟩

/-- C7: the rule-8 letter-of-explanation Condition fires for any positive
12-month late-payment count, and for a count above 2 both it and the
rule-9 excessive-lateness Reason fire — neither suppresses the other —
so the decision is DENIED while the documentation condition remains in
the condition list. -/
theorem c7_late_payment_rules (input : JSVal) (now : String) :
    (0 < latePayments12mo input →
        Condition.latePaymentsLoe (latePayments12mo input)
          ∈ (computeDecision input now).conditions) ∧
      (2 < latePayments12mo input →
        Condition.latePaymentsLoe (latePayments12mo input)
            ∈ (computeDecision input now).conditions ∧
          Reason.excessiveLatePayments (latePayments12mo input)
            ∈ (computeDecision input now).reasons ∧
          (computeDecision input now).final_decision = Decision.DENIED) := by
  have hcond : ∀ _ : 0 < latePayments12mo input,
      Condition.latePaymentsLoe (latePayments12mo input) ∈ conditions input := by
    intro h0
    unfold conditions conditionsWith
    simp [List.mem_append, h0]
  refine ⟨fun h0 => hcond h0, fun h2 => ?_⟩
  have h0 : 0 < latePayments12mo input := lt_trans (by norm_num) h2
  have hreas : Reason.excessiveLatePayments (latePayments12mo input) ∈ reasons input := by
    unfold reasons
    simp [List.mem_append, h2]
  refine ⟨hcond h0, hreas, ?_⟩
  show final_decisionWith (reasons input) (conditions input) = Decision.DENIED
  exact (final_decisionWith_law (reasons input) (conditions input)).1.mpr
    (List.ne_nil_of_mem hreas)

/-- A case record with three late payments in the last 12 months. -/
def latePayCase : JSVal := JSVal.obj
  [ ("credit_history", JSVal.obj [ ("late_payments_12mo", JSVal.num (JNum.fin 3))])]

/-- Witness for C7: with a count of 3, both late-payment rules fire and
the case is denied with the documentation condition still listed. -/
theorem c7_witness :
    2 < latePayments12mo latePayCase ∧
      (Condition.latePaymentsLoe (latePayments12mo latePayCase)
          ∈ (computeDecision latePayCase "t").conditions ∧
        Reason.excessiveLatePayments (latePayments12mo latePayCase)
          ∈ (computeDecision latePayCase "t").reasons ∧
        (computeDecision latePayCase "t").final_decision = Decision.DENIED) :=
  ⟨by with_unfolding_all decide,
    (c7_late_payment_rules latePayCase "t").2 (by with_unfolding_all decide)⟩

/-- Counterexample to C5 as stated: the timestamp is not the only
non-deterministic field.  Evaluating the same case at two instants on
different days and then forcing the timestamps equal still leaves
different Results, because the decision memo embeds the evaluation date
(line 166). -/
theorem c5_counterexample :
    ¬ ({ computeDecision JSVal.null "2026-01-01T10:00:00.000Z" with timestamp := "t" }
        = { computeDecision JSVal.null "2026-01-02T10:00:00.000Z" with timestamp := "t" }) :=
  fun h =>
    absurd (congrArg (fun r => r.decision_memo.date) h) (by with_unfolding_all decide)

/-- C5 amended: for a fixed case record, repeated evaluation yields
identical case identity, decision, risk score, metrics, condition and
reason lists, and raw input; the timestamp and the memo's embedded
evaluation date are the only clock-dependent parts — the memo itself is
identical whenever the evaluation dates coincide. -/
theorem c5_amended_determinism (input : JSVal) (t1 t2 : String) :
    (computeDecision input t1).case_id = (computeDecision input t2).case_id ∧
      (computeDecision input t1).final_decision = (computeDecision input t2).final_decision ∧
      (computeDecision input t1).risk_score = (computeDecision input t2).risk_score ∧
      (computeDecision input t1).metrics = (computeDecision input t2).metrics ∧
      (computeDecision input t1).conditions = (computeDecision input t2).conditions ∧
      (computeDecision input t1).reasons = (computeDecision input t2).reasons ∧
      (computeDecision input t1).raw_input = (computeDecision input t2).raw_input ∧
      ((computeDecision input t1).decision_memo.date
          = (computeDecision input t2).decision_memo.date →
        (computeDecision input t1).decision_memo
          = (computeDecision input t2).decision_memo) := by
  refine ⟨rfl, rfl, rfl, rfl, rfl, rfl, rfl, fun h => ?_⟩
  have hd : (t1.splitOn "T").headD t1 = (t2.splitOn "T").headD t2 := h
  simp only [computeDecision, computeDecisionWith]
  rw [hd]

/-- Witness for the amended C5: two evaluations at different instants of
the same day produce the same memo. -/
theorem c5_amended_witness :
    (computeDecision JSVal.null "2026-03-05T08:00:00.000Z").decision_memo.date
        = (computeDecision JSVal.null "2026-03-05T21:30:00.000Z").decision_memo.date ∧
      (computeDecision JSVal.null "2026-03-05T08:00:00.000Z").decision_memo
        = (computeDecision JSVal.null "2026-03-05T21:30:00.000Z").decision_memo :=
  ⟨by with_unfolding_all decide,
    (c5_amended_determinism JSVal.null "2026-03-05T08:00:00.000Z"
        "2026-03-05T21:30:00.000Z").2.2.2.2.2.2.2 (by with_unfolding_all decide)⟩

/-- A debts record whose only line item is the numeric string "100". -/
def strItemDebts : JSVal := JSVal.obj [ ("car_loan", JSVal.str "100")]

/-- Counterexample to C8 as stated: with no aggregate field present, a
line item holding the numeric string "100" (which the coercion rule maps
to 100) is ignored by the sum — line 17 filters on
`typeof v === "number"`, so numeric strings never enter the total. -/
theorem c8_counterexample :
    asNumber (jsGetProp strItemDebts "total_monthly_debt") = none ∧
      asNumber (JSVal.str "100") = some 100 ∧
      sumDebts strItemDebts = JNum.fin 0 ∧
      sumDebts strItemDebts ≠ JNum.fin 100 := by with_unfolding_all decide

/-- C8 amended: a coercible aggregate `total_monthly_debt` (native number
or numeric string) is authoritative and line items are ignored; otherwise,
for a truthy object, the total is the sum of exactly the line items whose
value is a native JS number (numeric strings among line items are
ignored), excluding the aggregate key. -/
theorem c8_amended_debt_aggregation (debts : JSVal) :
    (∀ t, asNumber (jsGetProp debts "total_monthly_debt") = some t →
        sumDebts debts = JNum.fin t) ∧
      (asNumber (jsGetProp debts "total_monthly_debt") = none →
        jsFalsy debts = false → jsTypeofIsObject debts = true →
          sumDebts debts = specNativeItemSum (jsEntries debts)) := by
  constructor
  · intro t h
    cases debts
    case obj fs =>
      unfold sumDebts
      simp [jsFalsy, jsTypeofIsObject, h]
    all_goals simp [jsGetProp, asNumber, jsToNumber] at h
  · intro h hf ho
    unfold sumDebts
    simp [h, hf, ho, sumDebtsItems, specNativeItemSum]

/-- A debts record with an aggregate given as the numeric string "250"
and a native-number line item. -/
def aggDebts : JSVal := JSVal.obj
  [ ("total_monthly_debt", JSVal.str "250"), ("car", JSVal.num (JNum.fin 400))]

/-- A debts record with a native-number line item and a numeric-string
line item, and no aggregate. -/
def itemDebts : JSVal := JSVal.obj
  [ ("car", JSVal.num (JNum.fin 400)), ("misc", JSVal.str "100")]

/-- Witness for the amended C8: the string aggregate "250" is
authoritative; without an aggregate, only the native-number item 400 is
summed. -/
theorem c8_amended_witness :
    asNumber (jsGetProp aggDebts "total_monthly_debt") = some 250 ∧
      sumDebts aggDebts = JNum.fin 250 ∧
      asNumber (jsGetProp itemDebts "total_monthly_debt") = none ∧
      sumDebts itemDebts = specNativeItemSum (jsEntries itemDebts) ∧
      specNativeItemSum (jsEntries itemDebts) = JNum.fin 400 :=
  ⟨by with_unfolding_all decide,
    (c8_amended_debt_aggregation aggDebts).1 250 (by with_unfolding_all decide),
    by with_unfolding_all decide,
    (c8_amended_debt_aggregation itemDebts).2 (by with_unfolding_all decide)
      (by with_unfolding_all decide) (by with_unfolding_all decide),
    by with_unfolding_all decide⟩

/-- A case record that is healthy in every respect (supplied DTI 0.2,
LTV 0.5, 200 months of reserves, no lates, gaps, repairs or deposits)
except that `credit_score` is missing entirely. -/
def missingCreditCase : JSVal := JSVal.obj
  [ ("dti_ratio", JSVal.num (JNum.fin (1/5)))
  , ("employment", JSVal.obj [ ("monthly_income", JSVal.num (JNum.fin 10000))])
  , ("loan", JSVal.obj
      [ ("amount", JSVal.num (JNum.fin 100000))
      , ("monthly_piti", JSVal.num (JNum.fin 500))])
  , ("property", JSVal.obj [ ("appraised_value", JSVal.num (JNum.fin 200000))])
  , ("assets", JSVal.obj [ ("savings", JSVal.num (JNum.fin 100000))])]

/-- Counterexample to C9 as stated: a missing `credit_score` is not
treated as unknown — line 25 defaults it to 0, and the below-620 Reason
fires (with score 0) as the sole reason, denying an otherwise healthy
case. -/
theorem c9_counterexample :
    asNumber (optChain missingCreditCase "credit_score") = none ∧
      (computeDecision missingCreditCase "t").reasons = [Reason.creditScoreBelowMin 0] ∧
      (computeDecision missingCreditCase "t").conditions = [] ∧
      (computeDecision missingCreditCase "t").final_decision = Decision.DENIED := by
  with_unfolding_all decide

/-- C9 amended: whenever `credit_score` is absent or non-numeric, the
normalizer defaults it to 0, the below-620 denial Reason (with score 0)
is emitted, and the case is denied. -/
theorem c9_amended_missing_credit (input : JSVal) (now : String)
    (h : asNumber (optChain input "credit_score") = none) :
    credit_score input = 0 ∧
      Reason.creditScoreBelowMin 0 ∈ (computeDecision input now).reasons ∧
      (computeDecision input now).final_decision = Decision.DENIED := by
  have hcs : credit_score input = 0 := by unfold credit_score; rw [h]; rfl
  have hmem : Reason.creditScoreBelowMin 0 ∈ reasons input := by
    unfold reasons
    rw [hcs]
    norm_num [List.mem_append]
  refine ⟨hcs, hmem, ?_⟩
  show final_decisionWith (reasons input) (conditions input) = Decision.DENIED
  exact (final_decisionWith_law (reasons input) (conditions input)).1.mpr
    (List.ne_nil_of_mem hmem)

/-- Witness for the amended C9: the empty case record has no credit
score, is scored 0, and is denied for it. -/
theorem c9_amended_witness :
    asNumber (optChain (JSVal.obj []) "credit_score") = none ∧
      (credit_score (JSVal.obj []) = 0 ∧
        Reason.creditScoreBelowMin 0 ∈ (computeDecision (JSVal.obj []) "t").reasons ∧
        (computeDecision (JSVal.obj []) "t").final_decision = Decision.DENIED) :=
  ⟨by with_unfolding_all decide,
    c9_amended_missing_credit (JSVal.obj []) "t" (by with_unfolding_all decide)⟩
